import Mathlib

/-!
Shallow embedding of the restaurant ordering application (`main.py`):
data model (User, MenuItem, Order, OrderItem, MenuSetting), the request
handlers, and theorems about the claims of the specification.

Machine conventions:
* Database rows are Lean structures; tables are lists in insertion order.
* Auto-incrementing primary keys are modelled by `next_*` counters in `DB`.
* `Float` columns (`price`, `total_price`) are modelled by `ℚ`: the code
  only adds and multiplies prices, and the claims are stated symbolically.
* A Python unhandled exception (e.g. `ValueError` from `int(...)`) is the
  `Response.fault` outcome; the surrounding unit of work is rolled back,
  so a faulting handler returns the unchanged database.
* Form data (`await request.form()`) is a list of key/value string pairs
  in submission order.
-/

/-- A row of the `users` table (`class User`, main.py lines 38-46).
`username` carries a SQL `unique=True` constraint. -/
structure User where
  id : Nat
  username : String
  password : String
  is_restaurant : Bool
deriving Repr, DecidableEq

/-- A row of the `menu_items` table (`class MenuItem`, main.py lines 48-57). -/
structure MenuItem where
  id : Nat
  name : String
  price : ℚ
  description : Option String
  image_path : Option String
deriving Repr, DecidableEq

/-- A row of the `orders` table (`class Order`, main.py lines 59-68).
`user_id` is a nullable foreign-key column: the ORM's default nullify
cascade sets it to `NULL` (`none`) when the owning `User` row is deleted. -/
structure Order where
  id : Nat
  user_id : Option Nat
  order_date : String
  total_price : ℚ
deriving Repr, DecidableEq

/-- A row of the `order_items` table (`class OrderItem`, main.py lines 70-79).
`menu_item_id` is a nullable foreign-key column: the ORM's default nullify
cascade sets it to `NULL` (`none`) when the referenced `MenuItem` row is
deleted. -/
structure OrderItem where
  id : Nat
  order_id : Nat
  menu_item_id : Option Nat
  quantity : Int
deriving Repr, DecidableEq

/-- A row of the `menu_settings` table (`class MenuSetting`, main.py lines 81-85). -/
structure MenuSetting where
  id : Nat
  full_menu_image : Option String
deriving Repr, DecidableEq

/-- The relational store: the five tables plus the auto-increment counters
for their integer primary keys. -/
structure DB where
  users : List User
  menu_items : List MenuItem
  orders : List Order
  order_items : List OrderItem
  menu_settings : List MenuSetting
  next_user_id : Nat
  next_menu_item_id : Nat
  next_order_id : Nat
  next_order_item_id : Nat
  next_setting_id : Nat
deriving Repr, DecidableEq

/-- Outcome of a request handler.  `fault` is an uncaught Python exception
propagating out of the handler (the unit of work is rolled back). -/
inductive Response where
  | redirect (url : String)
  | render (page : String)
  | fault
deriving Repr, DecidableEq

/-- `get_current_user` (main.py lines 131-137): resolve the session-stored
user id to a `User` row; `none` when the session carries no identity or the
id no longer resolves to a row. -/
def get_current_user (db : DB) (session : Option Nat) : Option User :=
  match session with
  | none => none
  | some uid => db.users.find? (fun u => u.id == uid)

/-- Decimal digit run: `none` on an empty run or a non-digit. -/
def digitsVal : List Char → Option Nat
  | [] => none
  | [c] => if c.isDigit then some (c.toNat - 48) else none
  | c :: rest =>
    if c.isDigit then
      (digitsVal rest).map (fun n => (c.toNat - 48) * 10 ^ rest.length + n)
    else none

/-- Python `int(s)` on a string: optional sign followed by at least one
digit; anything else raises `ValueError` (modelled as `none`). -/
def pyInt (s : String) : Option Int :=
  match s.data with
  | '-' :: rest => (digitsVal rest).map (fun n => -(n : Int))
  | '+' :: rest => (digitsVal rest).map (fun n => (n : Int))
  | cs => (digitsVal cs).map (fun n => (n : Int))

/-- Does `cs` start with `pre`? -/
def charsStartWith : List Char → List Char → Bool
  | _, [] => true
  | [], _ :: _ => false
  | c :: cs, p :: ps => c == p && charsStartWith cs ps

/-- Python `str.startswith`. -/
def pyStartsWith (s pre : String) : Bool :=
  charsStartWith s.data pre.data

/-- Python `str.split(sep)` on a character list: split on every occurrence
of the separator, keeping empty groups. -/
def pySplitChars (sep : Char) : List Char → List (List Char)
  | [] => [[]]
  | c :: cs =>
    match pySplitChars sep cs with
    | [] => [[]]
    | g :: gs => if c == sep then [] :: g :: gs else (c :: g) :: gs

/-- Python `str.split(sep)` for a one-character separator. -/
def pySplit (s : String) (sep : Char) : List String :=
  (pySplitChars sep s.data).map (fun g => String.mk g)

/-- One line collected by the `place_order` form scan: the resolved
`MenuItem` together with the requested quantity. -/
structure OrderLine where
  item : MenuItem
  quantity : Int
deriving Repr, DecidableEq

/-- The form scan of `place_order` (main.py lines 453-461): walk the posted
fields in order; for a key starting with `quantity_`, parse the value with
`int` (a parse failure raises, aborting the whole request), skip
non-positive quantities, parse the item id from the key (`key.split("_")[1]`,
again `int` may raise), look the `MenuItem` up, and accumulate the line and
`price * quantity` into the running total.  `none` models the uncaught
`ValueError`. -/
def collect_order_items (db : DB) :
    List (String × String) → List OrderLine × ℚ → Option (List OrderLine × ℚ)
  | [], acc => some acc
  | (key, value) :: rest, acc =>
    if pyStartsWith key "quantity_" then
      match pyInt value with
      | none => none
      | some q =>
        if 0 < q then
          match ((pySplit key '_').get? 1).bind pyInt with
          | none => none
          | some item_id =>
            match db.menu_items.find? (fun m => (m.id : Int) == item_id) with
            | some mi =>
                collect_order_items db rest
                  (acc.1 ++ [⟨mi, q⟩], acc.2 + mi.price * (q : ℚ))
            | none => collect_order_items db rest acc
        else collect_order_items db rest acc
    else collect_order_items db rest acc

/-- The `OrderItem` rows created by `place_order` for the collected lines
(main.py lines 474-480), with primary keys assigned from `start`. -/
def mk_order_items (oid : Nat) (start : Nat) : List OrderLine → List OrderItem
  | [] => []
  | l :: rest =>
    ⟨start, oid, some l.item.id, l.quantity⟩ :: mk_order_items oid (start + 1) rest

/-- `place_order` (main.py lines 443-486): require an authenticated user,
scan the form for quantities, and if at least one valid line was collected
create one `Order` (primary key obtained by `db.flush()`) and one
`OrderItem` per line, then redirect to the order history; with no valid
line, redirect back to the menu with no mutation.  A `ValueError` during
the scan propagates uncaught and the transaction is rolled back. -/
def place_order (db : DB) (session : Option Nat)
    (form : List (String × String)) (now : String) : Response × DB :=
  match get_current_user db session with
  | none => (.redirect "/", db)
  | some user =>
    match collect_order_items db form ([], 0) with
    | none => (.fault, db)
    | some (lines, total) =>
      if lines.isEmpty then
        (.redirect "/customer/menu", db)
      else
        let oid := db.next_order_id
        (.redirect "/customer/orders",
          { db with
             orders := db.orders ++ [⟨oid, some user.id, now, total⟩],
             order_items := db.order_items ++
               mk_order_items oid db.next_order_item_id lines,
             next_order_id := oid + 1,
             next_order_item_id := db.next_order_item_id + lines.length })

/-- Specification-side recomputation of the valid lines of a submission:
the fields whose key starts with `quantity_`, whose value parses to a
positive integer, and whose item id resolves to a `MenuItem`. -/
def valid_lines (db : DB) : List (String × String) → List OrderLine
  | [] => []
  | (key, value) :: rest =>
    if pyStartsWith key "quantity_" then
      match pyInt value with
      | none => valid_lines db rest
      | some q =>
        if 0 < q then
          match ((pySplit key '_').get? 1).bind pyInt with
          | none => valid_lines db rest
          | some item_id =>
            match db.menu_items.find? (fun m => (m.id : Int) == item_id) with
            | some mi => ⟨mi, q⟩ :: valid_lines db rest
            | none => valid_lines db rest
        else valid_lines db rest
    else valid_lines db rest

/-- The total of a list of order lines: the sum of `price × quantity`. -/
def line_total (lines : List OrderLine) : ℚ :=
  (lines.map (fun l => l.item.price * (l.quantity : ℚ))).sum

/-- A `quantity_` form field is well formed when its value parses as an
integer and, if the value is positive, the id part of the key parses as an
integer too — exactly the conditions under which the scan of `place_order`
cannot raise on that field. -/
def wf_quantity_field (key value : String) : Bool :=
  match pyInt value with
  | none => false
  | some q => if 0 < q then (((pySplit key '_').get? 1).bind pyInt).isSome else true

/-- Update the first row matching `p` (SQLAlchemy `query.filter(...).first()`
followed by attribute assignment and commit). -/
def update_first {α : Type} (p : α → Bool) (f : α → α) : List α → List α
  | [] => []
  | x :: xs => if p x then f x :: xs else x :: update_first p f xs

/-- Delete the first row matching `p` (`query.filter(...).first()` followed
by `db.delete(...)`). -/
def erase_first {α : Type} (p : α → Bool) : List α → List α
  | [] => []
  | x :: xs => if p x then xs else x :: erase_first p xs

/-- `db.add(User(...)); db.commit()` against the `unique=True` index on
`username` (main.py line 42): inserting a duplicate username raises an
`IntegrityError` and the transaction is rolled back (`none`); otherwise the
new row is appended with the next primary key. -/
def insert_user (db : DB) (username password : String) (isr : Bool) :
    Option (User × DB) :=
  if db.users.any (fun u => u.username == username) then none
  else
    let u : User := ⟨db.next_user_id, username, password, isr⟩
    some (u, { db with users := db.users ++ [u],
                       next_user_id := db.next_user_id + 1 })

/-- Outcome of the login handler. -/
inductive LoginResult where
  /-- `login.html` re-rendered with the generic error message. -/
  | errorPage
  /-- session `auth` set to the user id, then redirect by role. -/
  | success (session_user_id : Nat) (url : String)
  /-- an uncaught storage fault. -/
  | fault
deriving Repr, DecidableEq

/-- `login` (main.py lines 172-206): `is_restaurant = is_student != "true"`;
look the username up; a missing user on a customer login is created on the
spot (login doubles as signup), a missing user on a restaurant login or a
password mismatch re-renders the login page with a generic error; on
success the session is set to the user id and the caller is redirected by
role. -/
def login (db : DB) (username password : String) (is_student : Option String) :
    LoginResult × DB :=
  let is_restaurant : Bool := !(is_student == some "true")
  match db.users.find? (fun u => u.username == username) with
  | none =>
    if !is_restaurant then
      match insert_user db username password false with
      | none => (.fault, db)
      | some (u, db') =>
        (.success u.id
          (if u.is_restaurant then "/restaurant/dashboard" else "/customer/menu"),
         db')
    else (.errorPage, db)
  | some u =>
    if u.password == password then
      (.success u.id
        (if u.is_restaurant then "/restaurant/dashboard" else "/customer/menu"),
       db)
    else (.errorPage, db)

/-- `logout` (main.py lines 209-213): clears the session (not part of `DB`)
and redirects to the login page; no persistence effect. -/
def logout (db : DB) : Response × DB :=
  (.redirect "/", db)

/-- `restaurant_dashboard` (main.py lines 216-227): restaurant-only order
listing; read-only. -/
def restaurant_dashboard (db : DB) (session : Option Nat) : Response × DB :=
  match get_current_user db session with
  | none => (.redirect "/", db)
  | some user =>
    if !user.is_restaurant then (.redirect "/", db)
    else (.render "restaurant_dashboard.html", db)

/-- `restaurant_users` (main.py lines 230-241): restaurant-only user
listing; read-only. -/
def restaurant_users (db : DB) (session : Option Nat) : Response × DB :=
  match get_current_user db session with
  | none => (.redirect "/", db)
  | some user =>
    if !user.is_restaurant then (.redirect "/", db)
    else (.render "restaurant_users.html", db)

/-- `add_user` (main.py lines 244-261): restaurant-only; creates a user
with the admin-chosen role flag (`is_restaurant.lower() == "true"`); no
duplicate check of its own, so a duplicate username surfaces as the
storage-uniqueness fault of `insert_user`. -/
def add_user (db : DB) (session : Option Nat)
    (username password is_restaurant : String) : Response × DB :=
  match get_current_user db session with
  | none => (.redirect "/", db)
  | some user =>
    if !user.is_restaurant then (.redirect "/", db)
    else
      let is_restaurant_bool := is_restaurant.toLower == "true"
      match insert_user db username password is_restaurant_bool with
      | none => (.fault, db)
      | some (_, db') => (.redirect "/restaurant/users", db')

/-- `update_user` (main.py lines 264-284): restaurant-only password update;
if `password != confirm_password` it silently no-ops and redirects;
otherwise the target row (if any) gets the new password. -/
def update_user (db : DB) (session : Option Nat) (user_id : Nat)
    (password confirm_password : String) : Response × DB :=
  match get_current_user db session with
  | none => (.redirect "/", db)
  | some current_user =>
    if !current_user.is_restaurant then (.redirect "/", db)
    else if password != confirm_password then (.redirect "/restaurant/users", db)
    else
      match db.users.find? (fun u => u.id == user_id) with
      | none => (.redirect "/restaurant/users", db)
      | some _ =>
        let users' := update_first (fun u => u.id == user_id)
          (fun u => { u with password := password }) db.users
        (.redirect "/restaurant/users", { db with users := users' })

/-- `delete_user` (main.py lines 287-298): restaurant-only; removes the
row if it exists, unconditionally.  The `User.orders` relationship has no
delete cascade, so on flush the ORM's default nullify sets `user_id` to
`NULL` on the deleted user's `Order` rows before deleting the user row. -/
def delete_user (db : DB) (session : Option Nat) (user_id : Nat) :
    Response × DB :=
  match get_current_user db session with
  | none => (.redirect "/", db)
  | some user =>
    if !user.is_restaurant then (.redirect "/", db)
    else
      match db.users.find? (fun u => u.id == user_id) with
      | none => (.redirect "/restaurant/users", db)
      | some _ =>
        let users' := erase_first (fun u => u.id == user_id) db.users
        let orders' := db.orders.map (fun o =>
          if o.user_id == some user_id then { o with user_id := none } else o)
        (.redirect "/restaurant/users",
         { db with users := users', orders := orders' })

/-- `get_menu_settings` (main.py lines 140-147): return the singleton
`MenuSetting` row, lazily creating it when absent. -/
def get_menu_settings (db : DB) : MenuSetting × DB :=
  match db.menu_settings.head? with
  | some ms => (ms, db)
  | none =>
    let ms : MenuSetting := ⟨db.next_setting_id, none⟩
    (ms, { db with menu_settings := db.menu_settings ++ [ms],
                   next_setting_id := db.next_setting_id + 1 })

/-- `save_image` (main.py lines 150-158): the stored public path derived
from the request timestamp; the byte copy to disk is outside the store. -/
def save_image (ts : String) : String :=
  "/static/images/" ++ ts ++ ".jpg"

/-- `restaurant_menu` (main.py lines 301-315): restaurant-only menu page;
reads the menu and the (lazily created) settings row. -/
def restaurant_menu (db : DB) (session : Option Nat) : Response × DB :=
  match get_current_user db session with
  | none => (.redirect "/", db)
  | some user =>
    if !user.is_restaurant then (.redirect "/", db)
    else (.render "restaurant_menu.html", (get_menu_settings db).2)

/-- `add_menu_item` (main.py lines 318-340): restaurant-only; optional
image upload (`if item_image and item_image.filename`), then a new
`MenuItem` row. -/
def add_menu_item (db : DB) (session : Option Nat) (name : String) (price : ℚ)
    (description : String) (item_image : Option String) (ts : String) :
    Response × DB :=
  match get_current_user db session with
  | none => (.redirect "/", db)
  | some user =>
    if !user.is_restaurant then (.redirect "/", db)
    else
      let image_path : Option String :=
        match item_image with
        | some fn => if fn.isEmpty then none else some (save_image ts)
        | none => none
      let items' := db.menu_items ++
        [⟨db.next_menu_item_id, name, price, some description, image_path⟩]
      (.redirect "/restaurant/menu",
       { db with menu_items := items',
                 next_menu_item_id := db.next_menu_item_id + 1 })

/-- `update_menu_item` (main.py lines 343-363): restaurant-only; mutates
name/price/description of the row in place (image untouched); silent no-op
when the id resolves to no row. -/
def update_menu_item (db : DB) (session : Option Nat) (item_id : Nat)
    (name : String) (price : ℚ) (description : String) : Response × DB :=
  match get_current_user db session with
  | none => (.redirect "/", db)
  | some user =>
    if !user.is_restaurant then (.redirect "/", db)
    else
      match db.menu_items.find? (fun m => m.id == item_id) with
      | none => (.redirect "/restaurant/menu", db)
      | some _ =>
        let items' := update_first (fun m => m.id == item_id)
          (fun m => { m with name := name, price := price,
                             description := some description })
          db.menu_items
        (.redirect "/restaurant/menu", { db with menu_items := items' })

/-- `upload_menu_item_image` (main.py lines 366-386): restaurant-only;
`if item and item_image.filename` replaces the stored image path. -/
def upload_menu_item_image (db : DB) (session : Option Nat) (item_id : Nat)
    (filename ts : String) : Response × DB :=
  match get_current_user db session with
  | none => (.redirect "/", db)
  | some user =>
    if !user.is_restaurant then (.redirect "/", db)
    else
      match db.menu_items.find? (fun m => m.id == item_id) with
      | none => (.redirect "/restaurant/menu", db)
      | some _ =>
        if filename.isEmpty then (.redirect "/restaurant/menu", db)
        else
          let items' := update_first (fun m => m.id == item_id)
            (fun m => { m with image_path := some (save_image ts) })
            db.menu_items
          (.redirect "/restaurant/menu", { db with menu_items := items' })

/-- `upload_full_menu_image` (main.py lines 389-409): restaurant-only;
replaces the full-menu image path on the (lazily created) settings row
when a filename is present. -/
def upload_full_menu_image (db : DB) (session : Option Nat)
    (filename ts : String) : Response × DB :=
  match get_current_user db session with
  | none => (.redirect "/", db)
  | some user =>
    if !user.is_restaurant then (.redirect "/", db)
    else
      let ms := (get_menu_settings db).1
      let db' := (get_menu_settings db).2
      if filename.isEmpty then (.redirect "/restaurant/menu", db')
      else
        let settings' := update_first (fun s => s.id == ms.id)
          (fun s => { s with full_menu_image := some (save_image ts) })
          db'.menu_settings
        (.redirect "/restaurant/menu", { db' with menu_settings := settings' })

/-- `delete_menu_item` (main.py lines 412-423): restaurant-only; removes
the row if it exists, unconditionally, independent of `OrderItem`
references.  The `MenuItem.order_items` relationship has no delete
cascade, so on flush the ORM's default nullify emits
`UPDATE order_items SET menu_item_id = NULL` for the referencing rows
before deleting the menu row: the `OrderItem` rows are not deleted, but
their foreign key becomes `NULL`. -/
def delete_menu_item (db : DB) (session : Option Nat) (item_id : Nat) :
    Response × DB :=
  match get_current_user db session with
  | none => (.redirect "/", db)
  | some user =>
    if !user.is_restaurant then (.redirect "/", db)
    else
      match db.menu_items.find? (fun m => m.id == item_id) with
      | none => (.redirect "/restaurant/menu", db)
      | some _ =>
        let items' := erase_first (fun m => m.id == item_id) db.menu_items
        let order_items' := db.order_items.map (fun oi =>
          if oi.menu_item_id == some item_id then { oi with menu_item_id := none }
          else oi)
        (.redirect "/restaurant/menu",
         { db with menu_items := items', order_items := order_items' })

/-- `customer_menu` (main.py lines 426-440): any authenticated identity;
reads the menu and the (lazily created) settings row. -/
def customer_menu (db : DB) (session : Option Nat) : Response × DB :=
  match get_current_user db session with
  | none => (.redirect "/", db)
  | some _ => (.render "customer_menu.html", (get_menu_settings db).2)

/-- One rendered line of the order-history page (main.py lines 502-507):
name and price re-resolved from the `MenuItem` at view time, quantity from
the stored `OrderItem`, subtotal recomputed as current price × quantity. -/
structure OrderLineView where
  name : String
  price : ℚ
  quantity : Int
  subtotal : ℚ
deriving Repr, DecidableEq

/-- Outcome of the order-history handler, carrying the view model handed
to the template on success. -/
inductive OrdersView where
  | redirectLogin
  | page (data : List (Order × List OrderLineView))
  /-- `menu_item.name` on a `None` lookup result: uncaught `AttributeError`. -/
  | fault
deriving Repr, DecidableEq

/-- Build one history line (main.py lines 501-507): look the `MenuItem` up
by the stored id (`MenuItem.id == item.menu_item_id`; a `NULL` stored id
matches no row, as `id = NULL` is false in SQL); a `None` lookup result
makes the attribute access raise (`none`). -/
def build_line (db : DB) (it : OrderItem) : Option OrderLineView :=
  match db.menu_items.find? (fun m => some m.id == it.menu_item_id) with
  | none => none
  | some mi => some ⟨mi.name, mi.price, it.quantity, mi.price * (it.quantity : ℚ)⟩

/-- Build the history lines of one order, left to right; the first missing
`MenuItem` aborts the request. -/
def build_lines (db : DB) : List OrderItem → Option (List OrderLineView)
  | [] => some []
  | it :: rest =>
    match build_line db it with
    | none => none
    | some v => (build_lines db rest).map (fun vs => v :: vs)

/-- The `OrderItem` rows of an order (the `order.items` relationship), in
table order. -/
def order_items_of (db : DB) (o : Order) : List OrderItem :=
  db.order_items.filter (fun it => it.order_id == o.id)

/-- Insert into a list kept in descending `order_date` order. -/
def insert_desc (o : Order) : List Order → List Order
  | [] => [o]
  | x :: xs => if x.order_date < o.order_date then o :: x :: xs
               else x :: insert_desc o xs

/-- `ORDER BY order_date DESC` (main.py line 495), as an insertion sort. -/
def sort_orders_desc : List Order → List Order
  | [] => []
  | o :: os => insert_desc o (sort_orders_desc os)

/-- Build the order-history view model: each of the user's orders paired
with its recomputed lines; a missing `MenuItem` anywhere aborts. -/
def build_orders_view (db : DB) : List Order → Option (List (Order × List OrderLineView))
  | [] => some []
  | o :: rest =>
    match build_lines db (order_items_of db o) with
    | none => none
    | some vs => (build_orders_view db rest).map (fun ds => (o, vs) :: ds)

/-- `customer_orders` (main.py lines 489-513): any authenticated identity;
lists the user's orders most recent first and re-resolves every line's
`MenuItem` at view time; a `NULL` (nullified by a menu delete) or dangling
`menu_item_id` makes the lookup return no row and the handler raise. -/
def customer_orders (db : DB) (session : Option Nat) : OrdersView × DB :=
  match get_current_user db session with
  | none => (.redirectLogin, db)
  | some user =>
    match build_orders_view db
      (sort_orders_desc (db.orders.filter (fun o => o.user_id == some user.id))) with
    | none => (.fault, db)
    | some data => (.page data, db)

/-- The empty store (fresh `restaurant.db`), auto-increment counters at 1. -/
def empty_db : DB :=
  ⟨[], [], [], [], [], 1, 1, 1, 1, 1⟩

/-- `init_db` (main.py lines 99-128): when no restaurant account exists,
seed the two accounts, the four menu items and the settings row. -/
def init_db (db : DB) : DB :=
  if db.users.any (fun u => u.is_restaurant) then db
  else
    { db with
      users := db.users ++
        [⟨db.next_user_id, "restaurant", "restaurant", true⟩,
         ⟨db.next_user_id + 1, "customer", "customer", false⟩],
      next_user_id := db.next_user_id + 2,
      menu_items := db.menu_items ++
        [⟨db.next_menu_item_id, "漢堡", 80, some "牛肉漢堡", none⟩,
         ⟨db.next_menu_item_id + 1, "薯條", 40, some "酥脆薯條", none⟩,
         ⟨db.next_menu_item_id + 2, "可樂", 30, some "冰涼可樂", none⟩,
         ⟨db.next_menu_item_id + 3, "沙拉", 60, some "新鮮蔬菜沙拉", none⟩],
      next_menu_item_id := db.next_menu_item_id + 4,
      menu_settings := db.menu_settings ++ [⟨db.next_setting_id, none⟩],
      next_setting_id := db.next_setting_id + 1 }

/-- The store after application startup (`startup_event`). -/
def init_state : DB :=
  init_db empty_db

/-- Specification-side lookup: the name a stored (nullable) `MenuItem` id
currently resolves to (empty when the row is missing or the id is `NULL`). -/
def current_name (db : DB) (mid : Option Nat) : String :=
  match db.menu_items.find? (fun m => some m.id == mid) with
  | some mi => mi.name
  | none => ""

/-- Specification-side lookup: the price a stored (nullable) `MenuItem` id
currently resolves to (zero when the row is missing or the id is `NULL`). -/
def current_price (db : DB) (mid : Option Nat) : ℚ :=
  match db.menu_items.find? (fun m => some m.id == mid) with
  | some mi => mi.price
  | none => 0

/-- Specification-side recomputation of one order-history line from the
menu as it stands at view time: name and price re-resolved by id, subtotal
equal to current price × stored quantity. -/
def history_line (db : DB) (it : OrderItem) : OrderLineView :=
  ⟨current_name db it.menu_item_id, current_price db it.menu_item_id,
   it.quantity, current_price db it.menu_item_id * (it.quantity : ℚ)⟩

/-- The quantity map of the spec example: `{A:2, B:0, C:-1, D:"x"}`, with A
the only id resolving to a `MenuItem` of the seeded store. -/
def c1_form : List (String × String) :=
  [("quantity_1", "2"), ("quantity_9", "0"), ("quantity_8", "-1"), ("quantity_7", "x")]

/-- A submission with one valid line (item 1, quantity 1) plus one
non-numeric quantity value. -/
def c2_form : List (String × String) :=
  [("quantity_1", "1"), ("quantity_2", "z")]

/-- The store after the seeded customer orders two of item 1 (price 80)
and the restaurant then changes item 1's price to 100: the frozen
`total_price` is 160 while the recomputed history subtotal is 200. -/
def drift_db : DB :=
  (update_menu_item
    (place_order init_state (some 2) [("quantity_1", "2")] "2025-01-01 12:00:00").2
    (some 1) 1 "漢堡" 100 "牛肉漢堡").2

/-- The store after the seeded customer orders two of item 1 and the
restaurant then deletes item 1: the `OrderItem` row survives with its
`menu_item_id` nullified by the delete, so its `MenuItem` lookup finds no
row. -/
def c9_db : DB :=
  (delete_menu_item
    (place_order init_state (some 2) [("quantity_1", "2")]
      "2025-01-01 12:00:00").2
    (some 1) 1).2


/-- One restaurant-administration request: the operations behind the
`/restaurant/...` routes, with their form/path parameters. -/
inductive AdminOp where
  | dashboard
  | users_page
  | users_add (username password is_restaurant : String)
  | users_update (user_id : Nat) (password confirm_password : String)
  | users_delete (user_id : Nat)
  | menu_page
  | menu_add (name : String) (price : ℚ) (description : String)
      (item_image : Option String) (ts : String)
  | menu_update (item_id : Nat) (name : String) (price : ℚ) (description : String)
  | menu_upload_image (item_id : Nat) (filename ts : String)
  | menu_upload_full (filename ts : String)
  | menu_delete (item_id : Nat)

/-- Dispatch a restaurant-administration request to its handler. -/
def run_admin (db : DB) (session : Option Nat) : AdminOp → Response × DB
  | .dashboard => restaurant_dashboard db session
  | .users_page => restaurant_users db session
  | .users_add un pw isr => add_user db session un pw isr
  | .users_update uid pw cpw => update_user db session uid pw cpw
  | .users_delete uid => delete_user db session uid
  | .menu_page => restaurant_menu db session
  | .menu_add n p d img ts => add_menu_item db session n p d img ts
  | .menu_update iid n p d => update_menu_item db session iid n p d
  | .menu_upload_image iid fn ts => upload_menu_item_image db session iid fn ts
  | .menu_upload_full fn ts => upload_full_menu_image db session fn ts
  | .menu_delete iid => delete_menu_item db session iid

/-- One request-handling step of the system: some handler runs against the
store with some (arbitrary) session and inputs, yielding the next store. -/
inductive Step : DB → DB → Prop where
  | ofLogin (db : DB) (un pw : String) (st : Option String) :
      Step db (login db un pw st).2
  | ofLogout (db : DB) : Step db (logout db).2
  | ofDashboard (db : DB) (sid : Option Nat) :
      Step db (restaurant_dashboard db sid).2
  | ofUsersPage (db : DB) (sid : Option Nat) :
      Step db (restaurant_users db sid).2
  | ofAddUser (db : DB) (sid : Option Nat) (un pw isr : String) :
      Step db (add_user db sid un pw isr).2
  | ofUpdateUser (db : DB) (sid : Option Nat) (uid : Nat) (pw cpw : String) :
      Step db (update_user db sid uid pw cpw).2
  | ofDeleteUser (db : DB) (sid : Option Nat) (uid : Nat) :
      Step db (delete_user db sid uid).2
  | ofMenuPage (db : DB) (sid : Option Nat) :
      Step db (restaurant_menu db sid).2
  | ofAddMenuItem (db : DB) (sid : Option Nat) (n : String) (p : ℚ)
      (d : String) (img : Option String) (ts : String) :
      Step db (add_menu_item db sid n p d img ts).2
  | ofUpdateMenuItem (db : DB) (sid : Option Nat) (iid : Nat) (n : String)
      (p : ℚ) (d : String) :
      Step db (update_menu_item db sid iid n p d).2
  | ofUploadItemImage (db : DB) (sid : Option Nat) (iid : Nat) (fn ts : String) :
      Step db (upload_menu_item_image db sid iid fn ts).2
  | ofUploadFullMenu (db : DB) (sid : Option Nat) (fn ts : String) :
      Step db (upload_full_menu_image db sid fn ts).2
  | ofDeleteMenuItem (db : DB) (sid : Option Nat) (iid : Nat) :
      Step db (delete_menu_item db sid iid).2
  | ofCustomerMenu (db : DB) (sid : Option Nat) :
      Step db (customer_menu db sid).2
  | ofPlaceOrder (db : DB) (sid : Option Nat)
      (form : List (String × String)) (now : String) :
      Step db (place_order db sid form now).2
  | ofCustomerOrders (db : DB) (sid : Option Nat) :
      Step db (customer_orders db sid).2

/-- A store state is reachable when some sequence of requests leads to it
from the freshly initialised store. -/
def Reachable (db : DB) : Prop :=
  Relation.ReflTransGen Step init_state db

/-- All `User` rows carry pairwise distinct usernames. -/
def UsernamesDistinct (db : DB) : Prop :=
  (db.users.map (fun u => u.username)).Nodup

theorem collect_eq_valid (db : DB) :
    ∀ (form : List (String × String)),
    (∀ kv ∈ form, pyStartsWith kv.1 "quantity_" = true →
      wf_quantity_field kv.1 kv.2 = true) →
    ∀ acc, collect_order_items db form acc =
      some (acc.1 ++ valid_lines db form,
            acc.2 + line_total (valid_lines db form)) := by
  intro form
  induction form with
  | nil => intro _ acc; simp [collect_order_items, valid_lines, line_total]
  | cons kv rest ih =>
    intro hwf acc
    obtain ⟨k, v⟩ := kv
    have hrest : ∀ kv ∈ rest, pyStartsWith kv.1 "quantity_" = true →
        wf_quantity_field kv.1 kv.2 = true :=
      fun kv h => hwf kv (List.mem_cons_of_mem _ h)
    by_cases hk : pyStartsWith k "quantity_" = true
    · have hwfk := hwf (k, v) (List.mem_cons_self _ _) hk
      unfold wf_quantity_field at hwfk
      cases hq : pyInt v with
      | none => rw [hq] at hwfk; simp at hwfk
      | some q =>
        rw [hq] at hwfk
        have hwfk2 : (if 0 < q then (((pySplit k '_').get? 1).bind pyInt).isSome
            else true) = true := hwfk
        by_cases hpos : 0 < q
        · rw [if_pos hpos] at hwfk2
          cases hidp : ((pySplit k '_').get? 1).bind pyInt with
          | none => rw [hidp] at hwfk2; simp at hwfk2
          | some item_id =>
            cases hfind : db.menu_items.find? (fun m => (m.id : Int) == item_id) with
            | some mi =>
              simp only [collect_order_items, valid_lines, hk, if_true, hq, hpos,
                hidp, hfind]
              rw [ih hrest]
              simp [line_total, List.append_assoc, add_assoc]
            | none =>
              simp only [collect_order_items, valid_lines, hk, if_true, hq, hpos,
                hidp, hfind]
              exact ih hrest acc
        · simp only [collect_order_items, valid_lines, hk, if_true, hq, hpos,
            if_false]
          exact ih hrest acc
    · simp only [Bool.not_eq_true] at hk
      simp only [collect_order_items, valid_lines, hk]
      exact ih hrest acc

theorem collect_fault_of_bad_value (db : DB) :
    ∀ (form : List (String × String)) (k v : String), (k, v) ∈ form →
    pyStartsWith k "quantity_" = true → pyInt v = none →
    ∀ acc, collect_order_items db form acc = none := by
  intro form
  induction form with
  | nil => intro k v h; exact absurd h (List.not_mem_nil _)
  | cons kv rest ih =>
    intro k v hmem hk hv acc
    obtain ⟨k', v'⟩ := kv
    rcases List.mem_cons.1 hmem with heq | hmem'
    · obtain ⟨hk1, hv1⟩ := Prod.mk.injEq k v k' v' ▸ heq
      subst hk1; subst hv1
      simp [collect_order_items, hk, hv]
    · by_cases hk1 : pyStartsWith k' "quantity_" = true
      · cases hq : pyInt v' with
        | none => simp only [collect_order_items, hk1, if_true, hq]
        | some q =>
          by_cases hpos : 0 < q
          · cases hidp : ((pySplit k' '_').get? 1).bind pyInt with
            | none => simp only [collect_order_items, hk1, if_true, hq, hpos, hidp]
            | some iid =>
              cases hfind : db.menu_items.find? (fun m => (m.id : Int) == iid) with
              | some mi =>
                simp only [collect_order_items, hk1, if_true, hq, hpos, hidp, hfind]
                exact ih k v hmem' hk hv _
              | none =>
                simp only [collect_order_items, hk1, if_true, hq, hpos, hidp, hfind]
                exact ih k v hmem' hk hv _
          · simp only [collect_order_items, hk1, if_true, hq, hpos, if_false]
            exact ih k v hmem' hk hv _
      · simp only [Bool.not_eq_true] at hk1
        simp only [collect_order_items, hk1]
        exact ih k v hmem' hk hv _

/-- Claim C1 (amended): for an order submission by an authenticated user, a
`quantity_` field whose value is non-numeric is NOT ignored: the `int(value)`
call raises, the whole submission fails with an unhandled fault, and the
store is left unchanged (no Order, no OrderItem).  A missing quantity field
simply never appears in the posted form. -/
theorem place_order_nonnumeric_quantity_faults (db : DB) (sid : Option Nat)
    (form : List (String × String)) (now : String) (u : User) (k v : String)
    (hu : get_current_user db sid = some u)
    (hmem : (k, v) ∈ form) (hk : pyStartsWith k "quantity_" = true)
    (hv : pyInt v = none) :
    place_order db sid form now = (Response.fault, db) := by
  unfold place_order
  rw [hu, collect_fault_of_bad_value db form k v hmem hk hv]


/-- Claim C1 counterexample: for the spec example quantities
`{A:2, B:0, C:-1, D:"x"}` against the seeded store (A = item 1 with price
80, the only valid id), the submission does not succeed and neither an
Order nor an OrderItem row is created — refuting the claim that the
non-numeric field is ignored and an Order with `total_price = 2 × 80` is
created. -/
theorem place_order_c1_example_no_order :
    (place_order init_state (some 2) c1_form "2025-01-01 12:00:00").1 = Response.fault ∧
    (place_order init_state (some 2) c1_form "2025-01-01 12:00:00").2.orders = [] ∧
    (place_order init_state (some 2) c1_form "2025-01-01 12:00:00").2.order_items = [] :=
  ⟨rfl, rfl, rfl⟩

/-- Claim C1 witness: the amended theorem applied to a concrete submission
with one valid line and one non-numeric quantity value. -/
theorem place_order_nonnumeric_witness :
    place_order init_state (some 2) [("quantity_1", "2"), ("quantity_7", "x")]
      "2025-01-01 12:00:00" = (Response.fault, init_state) :=
  place_order_nonnumeric_quantity_faults init_state (some 2) _ _
    ⟨2, "customer", "customer", false⟩ "quantity_7" "x" rfl (by decide) rfl rfl

theorem mk_order_items_get? (oid : Nat) :
    ∀ (lines : List OrderLine) (start j : Nat) (l : OrderLine),
    lines.get? j = some l →
    (mk_order_items oid start lines).get? j =
      some ⟨start + j, oid, some l.item.id, l.quantity⟩ := by
  intro lines
  induction lines with
  | nil => intro start j l h; simp [List.get?] at h
  | cons x xs ih =>
    intro start j l h
    cases j with
    | zero =>
      simp only [List.get?] at h
      cases h
      simp [mk_order_items, List.get?]
    | succ n =>
      simp only [List.get?] at h
      have := ih (start + 1) n l h
      simp only [mk_order_items, List.get?, this]
      congr 2
      omega

/-- Claim C2 (amended): for an order submission by an authenticated user in
which every `quantity_` field is well formed (integer value, and an integer
item id whenever the value is positive) and at least one valid line exists,
`place_order` creates exactly one Order whose `total_price` equals the sum
over valid lines of quantity × the MenuItem's current price, and exactly
one OrderItem per valid line referencing that Order's id and carrying that
line's quantity. -/
theorem place_order_valid_submission (db : DB) (sid : Option Nat)
    (form : List (String × String)) (now : String) (u : User)
    (hu : get_current_user db sid = some u)
    (hwf : ∀ kv ∈ form, pyStartsWith kv.1 "quantity_" = true →
      wf_quantity_field kv.1 kv.2 = true)
    (hne : valid_lines db form ≠ []) :
    place_order db sid form now =
      (Response.redirect "/customer/orders",
        { db with
           orders := db.orders ++
             [⟨db.next_order_id, some u.id, now, line_total (valid_lines db form)⟩],
           order_items := db.order_items ++
             mk_order_items db.next_order_id db.next_order_item_id
               (valid_lines db form),
           next_order_id := db.next_order_id + 1,
           next_order_item_id := db.next_order_item_id +
             (valid_lines db form).length }) ∧
    (∀ j l, (valid_lines db form).get? j = some l →
      (mk_order_items db.next_order_id db.next_order_item_id
          (valid_lines db form)).get? j =
        some ⟨db.next_order_item_id + j, db.next_order_id,
              some l.item.id, l.quantity⟩) := by
  constructor
  · unfold place_order
    rw [hu, collect_eq_valid db form hwf ([], 0)]
    have : (valid_lines db form).isEmpty = false := by
      cases hvl : valid_lines db form with
      | nil => exact absurd hvl hne
      | cons a as => rfl
    simp [this]
  · intro j l h
    exact mk_order_items_get? _ _ _ _ _ h


/-- Claim C2 counterexample: a submission with at least one valid line
(item 1, quantity 1) but also a non-numeric quantity value creates no Order
and no OrderItem — refuting the claim as stated, which asks only for one
valid line. -/
theorem place_order_c2_example_no_order :
    valid_lines init_state c2_form ≠ [] ∧
    (place_order init_state (some 2) c2_form "2025-01-01 12:00:00").1 = Response.fault ∧
    (place_order init_state (some 2) c2_form "2025-01-01 12:00:00").2.orders = [] ∧
    (place_order init_state (some 2) c2_form "2025-01-01 12:00:00").2.order_items = [] :=
  ⟨by decide, rfl, rfl, rfl⟩

/-- Claim C2 witness: the amended theorem applied to the seeded store with
the single-line submission `quantity_1 = 2`. -/
theorem place_order_valid_witness :
    place_order init_state (some 2) [("quantity_1", "2")] "2025-01-01 12:00:00" =
      (Response.redirect "/customer/orders",
        { init_state with
           orders := init_state.orders ++
             [⟨init_state.next_order_id, some 2, "2025-01-01 12:00:00",
               line_total (valid_lines init_state [("quantity_1", "2")])⟩],
           order_items := init_state.order_items ++
             mk_order_items init_state.next_order_id init_state.next_order_item_id
               (valid_lines init_state [("quantity_1", "2")]),
           next_order_id := init_state.next_order_id + 1,
           next_order_item_id := init_state.next_order_item_id +
             (valid_lines init_state [("quantity_1", "2")]).length }) :=
  (place_order_valid_submission init_state (some 2) _ _
    ⟨2, "customer", "customer", false⟩ rfl (by decide) (by decide)).1

/-- Claim C3: for an order submission by an authenticated user in which no
valid line exists (every quantity field parses but is zero or negative, or
its id resolves to no MenuItem), `place_order` performs no persistence
mutation — the store is returned unchanged — and the caller is redirected
to the menu page. -/
theorem place_order_no_valid_lines (db : DB) (sid : Option Nat)
    (form : List (String × String)) (now : String) (u : User)
    (hu : get_current_user db sid = some u)
    (hwf : ∀ kv ∈ form, pyStartsWith kv.1 "quantity_" = true →
      wf_quantity_field kv.1 kv.2 = true)
    (hempty : valid_lines db form = []) :
    place_order db sid form now = (Response.redirect "/customer/menu", db) := by
  unfold place_order
  rw [hu, collect_eq_valid db form hwf ([], 0), hempty]
  simp [line_total]

/-- Claim C3 witness: the theorem applied to a submission with a zero
quantity, a negative quantity, and a positive quantity for a non-existent
item. -/
theorem place_order_no_valid_lines_witness :
    place_order init_state (some 2)
      [("quantity_1", "0"), ("quantity_99", "5"), ("quantity_3", "-2")]
      "2025-01-01 12:00:00" = (Response.redirect "/customer/menu", init_state) :=
  place_order_no_valid_lines init_state (some 2) _ _
    ⟨2, "customer", "customer", false⟩ rfl (by decide) (by decide)

theorem build_lines_eq (db : DB) :
    ∀ (its : List OrderItem),
    (∀ it ∈ its,
      (db.menu_items.find? (fun m => some m.id == it.menu_item_id)).isSome = true) →
    build_lines db its = some (its.map (history_line db)) := by
  intro its
  induction its with
  | nil => intro _; rfl
  | cons it rest ih =>
    intro h
    have hit := h it (List.mem_cons_self _ _)
    cases hfind : db.menu_items.find? (fun m => some m.id == it.menu_item_id) with
    | none => rw [hfind] at hit; simp at hit
    | some mi =>
      have hrest := ih (fun x hx => h x (List.mem_cons_of_mem _ hx))
      simp only [build_lines, build_line, hfind, hrest, Option.map_some, List.map_cons]
      simp [history_line, current_name, current_price, hfind]

theorem build_orders_view_eq (db : DB) :
    ∀ (os : List Order),
    (∀ o ∈ os, ∀ it ∈ order_items_of db o,
      (db.menu_items.find? (fun m => some m.id == it.menu_item_id)).isSome = true) →
    build_orders_view db os =
      some (os.map (fun o => (o, (order_items_of db o).map (history_line db)))) := by
  intro os
  induction os with
  | nil => intro _; rfl
  | cons o rest ih =>
    intro h
    have ho := build_lines_eq db (order_items_of db o) (h o (List.mem_cons_self _ _))
    have hrest := ih (fun x hx => h x (List.mem_cons_of_mem _ hx))
    simp only [build_orders_view, ho, hrest, List.map_cons]
    rfl

theorem insert_desc_perm (o : Order) (l : List Order) :
    (insert_desc o l).Perm (o :: l) := by
  induction l with
  | nil => simp [insert_desc]
  | cons x xs ih =>
    simp only [insert_desc]
    by_cases hc : x.order_date < o.order_date
    · simp [hc]
    · simp only [hc, if_false]
      exact (ih.cons x).trans (List.Perm.swap o x xs)

theorem sort_orders_desc_perm (l : List Order) :
    (sort_orders_desc l).Perm l := by
  induction l with
  | nil => simp [sort_orders_desc]
  | cons x xs ih =>
    exact ((insert_desc_perm x (sort_orders_desc xs)).trans (ih.cons x))


/-- Claim C4: for an authenticated user whose orders' OrderItems all
reference existing MenuItems, `customer_orders` renders each line by
re-resolving the MenuItem at view time: displayed price and subtotal come
from the current menu row (`history_line`), the subtotal being current
price × stored quantity — not from data captured at order time.
Consequently the sum of displayed subtotals can differ from the Order's
frozen `total_price`: in the reachable store `drift_db` (order placed at
price 80, price then changed to 100) the displayed sum is 200 while
`total_price` is 160. -/
theorem customer_orders_recomputes_at_view_time
    (db : DB) (sid : Option Nat) (u : User)
    (hu : get_current_user db sid = some u)
    (hres : ∀ o ∈ db.orders, o.user_id = some u.id →
      ∀ it ∈ order_items_of db o,
        (db.menu_items.find? (fun m => some m.id == it.menu_item_id)).isSome = true) :
    customer_orders db sid =
      (OrdersView.page
        ((sort_orders_desc (db.orders.filter (fun o => o.user_id == some u.id))).map
          (fun o => (o, (order_items_of db o).map (history_line db)))), db) ∧
    (∃ o ∈ drift_db.orders,
      ((order_items_of drift_db o).map
        (fun it => (history_line drift_db it).subtotal)).sum ≠ o.total_price) ∧
    Reachable drift_db := by
  refine ⟨?_, ?_, ?_⟩
  · have hsorted : ∀ o ∈ sort_orders_desc
        (db.orders.filter (fun o => o.user_id == some u.id)),
        ∀ it ∈ order_items_of db o,
        (db.menu_items.find? (fun m => some m.id == it.menu_item_id)).isSome = true := by
      intro o ho it hit
      have hmem : o ∈ db.orders.filter (fun o => o.user_id == some u.id) :=
        (sort_orders_desc_perm _).mem_iff.1 ho
      obtain ⟨ho2, huid⟩ := List.mem_filter.1 hmem
      exact hres o ho2 (by simpa using huid) it hit
    simp only [customer_orders, hu, build_orders_view_eq db _ hsorted]
  · refine ⟨⟨1, some 2, "2025-01-01 12:00:00", (0 : ℚ) + 80 * ((2 : ℤ) : ℚ)⟩, ?_, ?_⟩
    · have ho : drift_db.orders =
          [⟨1, some 2, "2025-01-01 12:00:00", (0 : ℚ) + 80 * ((2 : ℤ) : ℚ)⟩] := rfl
      rw [ho]
      exact List.mem_singleton.2 rfl
    · have hit : order_items_of drift_db
          ⟨1, some 2, "2025-01-01 12:00:00", (0 : ℚ) + 80 * ((2 : ℤ) : ℚ)⟩ =
          [⟨1, 1, some 1, (2 : ℤ)⟩] := rfl
      simp only [hit, List.map_cons, List.map_nil, List.sum_cons, List.sum_nil]
      have hcp : current_price drift_db (some 1) = 100 := rfl
      simp only [history_line, hcp]
      norm_num
  · exact Relation.ReflTransGen.tail
      (Relation.ReflTransGen.tail Relation.ReflTransGen.refl
        (Step.ofPlaceOrder init_state (some 2) [("quantity_1", "2")]
          "2025-01-01 12:00:00"))
      (Step.ofUpdateMenuItem _ (some 1) 1 "漢堡" 100 "牛肉漢堡")

/-- Claim C4 witness: the theorem applied to the store right after the
seeded customer places an order. -/
theorem customer_orders_recomputes_witness :
    (customer_orders
      (place_order init_state (some 2) [("quantity_1", "2")]
        "2025-01-01 12:00:00").2 (some 2)).2 =
      (place_order init_state (some 2) [("quantity_1", "2")]
        "2025-01-01 12:00:00").2 := by
  have h := (customer_orders_recomputes_at_view_time
    (place_order init_state (some 2) [("quantity_1", "2")]
      "2025-01-01 12:00:00").2 (some 2)
    ⟨2, "customer", "customer", false⟩ rfl (by decide)).1
  exact congrArg Prod.snd h

/-- Claim C5: every restaurant-administration operation (dashboard, user
list/add/update/delete, menu list/add/update/upload/delete), on a request
whose session resolves to no User or to a User with `is_restaurant` false,
redirects to the login page and performs no persistence mutation. -/
theorem admin_requires_restaurant (db : DB) (sid : Option Nat) (op : AdminOp)
    (h : ∀ u ∈ get_current_user db sid, u.is_restaurant = false) :
    run_admin db sid op = (Response.redirect "/", db) := by
  cases hcu : get_current_user db sid with
  | none =>
    cases op <;>
      simp [run_admin, restaurant_dashboard, restaurant_users, add_user,
        update_user, delete_user, restaurant_menu, add_menu_item,
        update_menu_item, upload_menu_item_image, upload_full_menu_image,
        delete_menu_item, hcu]
  | some u =>
    have hu : u.is_restaurant = false := h u (by simp [hcu, Option.mem_def])
    cases op <;>
      simp [run_admin, restaurant_dashboard, restaurant_users, add_user,
        update_user, delete_user, restaurant_menu, add_menu_item,
        update_menu_item, upload_menu_item_image, upload_full_menu_image,
        delete_menu_item, hcu, hu]

/-- Claim C5 witness: the theorem applied to the dashboard operation with
no session identity. -/
theorem admin_requires_restaurant_witness :
    run_admin init_state none AdminOp.dashboard =
      (Response.redirect "/", init_state) :=
  admin_requires_restaurant init_state none AdminOp.dashboard
    (fun _ hmem => nomatch hmem)

/-- Claim C6: a password-update request by a restaurant account whose
`password` and `confirm_password` differ silently no-ops: the handler
redirects to the user list and the store — in particular the target User's
password and every other field — is unchanged, with no error surfaced. -/
theorem update_user_password_mismatch_noop (db : DB) (sid : Option Nat)
    (user_id : Nat) (password confirm_password : String) (cu : User)
    (hcu : get_current_user db sid = some cu)
    (hr : cu.is_restaurant = true)
    (hne : password ≠ confirm_password) :
    update_user db sid user_id password confirm_password =
      (Response.redirect "/restaurant/users", db) := by
  unfold update_user
  rw [hcu]
  simp [hr, hne]

/-- Claim C6 witness: the theorem applied to the seeded restaurant account
updating user 2 with mismatched password fields. -/
theorem update_user_password_mismatch_witness :
    update_user init_state (some 1) 2 "newpw" "typo" =
      (Response.redirect "/restaurant/users", init_state) :=
  update_user_password_mismatch_noop init_state (some 1) 2 "newpw" "typo"
    ⟨1, "restaurant", "restaurant", true⟩ rfl rfl (by decide)

/-- Claim C7: a login request whose role hint indicates a customer login
(`is_student = "true"`) and whose username matches no stored User creates
exactly one new User row with exactly that username and password and
`is_restaurant` false, sets the session to the new user's id, and redirects
to the customer menu page. -/
theorem login_unknown_customer_signup (db : DB) (username password : String)
    (hnone : ∀ u ∈ db.users, u.username ≠ username) :
    login db username password (some "true") =
      (LoginResult.success db.next_user_id "/customer/menu",
       { db with users := db.users ++ [⟨db.next_user_id, username, password, false⟩],
                 next_user_id := db.next_user_id + 1 }) := by
  have hfind : db.users.find? (fun u => u.username == username) = none := by
    rw [List.find?_eq_none]
    intro u hu
    simpa using hnone u hu
  have hany : db.users.any (fun u => u.username == username) = false := by
    rw [List.any_eq_false]
    intro u hu
    simpa using hnone u hu
  unfold login insert_user
  rw [hfind]
  simp [hany]

/-- Claim C7 witness: the theorem applied to the seeded store and an
unknown username. -/
theorem login_unknown_customer_signup_witness :
    login init_state "newbie" "pw" (some "true") =
      (LoginResult.success init_state.next_user_id "/customer/menu",
       { init_state with
          users := init_state.users ++
            [⟨init_state.next_user_id, "newbie", "pw", false⟩],
          next_user_id := init_state.next_user_id + 1 }) :=
  login_unknown_customer_signup init_state "newbie" "pw" (by decide)

theorem erase_first_sublist {α : Type} (p : α → Bool) :
    ∀ l : List α, (erase_first p l).Sublist l := by
  intro l
  induction l with
  | nil => simp [erase_first]
  | cons x xs ih =>
    simp only [erase_first]
    by_cases hx : p x
    · simp only [hx, if_true]
      exact (List.Sublist.refl xs).cons x
    · simp only [hx, if_false]
      exact ih.cons₂ x

theorem erase_first_no_id (iid : Nat) :
    ∀ (l : List MenuItem), (l.map (fun m => m.id)).Nodup →
    (∃ m ∈ l, m.id = iid) →
    ∀ x ∈ erase_first (fun m => m.id == iid) l, x.id ≠ iid := by
  intro l
  induction l with
  | nil =>
    intro _ hex
    obtain ⟨m, hm, _⟩ := hex
    exact absurd hm (List.not_mem_nil _)
  | cons a as ih =>
    intro hnd hex x hx
    have hnd' : a.id ∉ as.map (fun m => m.id) ∧ (as.map (fun m => m.id)).Nodup := by
      simpa [List.nodup_cons] using hnd
    by_cases ha : a.id = iid
    · simp only [erase_first, ha, beq_self_eq_true, if_true] at hx
      intro hxid
      exact hnd'.1 (ha ▸ hxid ▸ List.mem_map.2 ⟨x, hx, rfl⟩)
    · have hab : (a.id == iid) = false := beq_eq_false_iff_ne.2 ha
      simp only [erase_first, hab, Bool.false_eq_true, if_false] at hx
      rcases List.mem_cons.1 hx with rfl | hx'
      · exact ha
      · obtain ⟨m, hm, hmid⟩ := hex
        rcases List.mem_cons.1 hm with rfl | hm'
        · exact absurd hmid ha
        · exact ih hnd'.2 ⟨m, hm', hmid⟩ x hx'

/-- Claim C8 counterexample: in the store where the seeded customer has
ordered item 1, deleting item 1 changes the `order_items` table: the
referencing row is not deleted, but the ORM's default nullify sets its
`menu_item_id` to `NULL`, so no surviving row carries the deleted item's
id — refuting the claim that the rows persist referencing the now-missing
MenuItem id. -/
theorem delete_menu_item_dangling_counterexample :
    (place_order init_state (some 2) [("quantity_1", "2")]
      "2025-01-01 12:00:00").2.order_items = [⟨1, 1, some 1, 2⟩] ∧
    (delete_menu_item
      (place_order init_state (some 2) [("quantity_1", "2")]
        "2025-01-01 12:00:00").2 (some 1) 1).2.order_items = [⟨1, 1, none, 2⟩] ∧
    (delete_menu_item
      (place_order init_state (some 2) [("quantity_1", "2")]
        "2025-01-01 12:00:00").2 (some 1) 1).2.order_items ≠
      (place_order init_state (some 2) [("quantity_1", "2")]
        "2025-01-01 12:00:00").2.order_items :=
  ⟨rfl, rfl, by decide⟩

/-- Claim C8 (amended): when a MenuItem with OrderItem rows referencing it
is deleted by a restaurant account, the MenuItem row is removed
unconditionally and the OrderItem rows are not deleted — as many rows
remain as before, and the referencing row survives with its id, order and
quantity intact — but the ORM's default nullify sets their `menu_item_id`
foreign key to `NULL` during the flush, so no surviving row still carries
the deleted MenuItem's id. -/
theorem delete_menu_item_nullifies_references (db : DB) (sid : Option Nat)
    (item_id : Nat) (cu : User) (mi : MenuItem) (oi : OrderItem)
    (hcu : get_current_user db sid = some cu)
    (hr : cu.is_restaurant = true)
    (hmi : mi ∈ db.menu_items) (hmid : mi.id = item_id)
    (hnd : (db.menu_items.map (fun m => m.id)).Nodup)
    (hoi : oi ∈ db.order_items) (hoid : oi.menu_item_id = some item_id) :
    (delete_menu_item db sid item_id).1 = Response.redirect "/restaurant/menu" ∧
    (∀ m ∈ (delete_menu_item db sid item_id).2.menu_items, m.id ≠ item_id) ∧
    (delete_menu_item db sid item_id).2.order_items.length =
      db.order_items.length ∧
    (⟨oi.id, oi.order_id, none, oi.quantity⟩ : OrderItem) ∈
      (delete_menu_item db sid item_id).2.order_items ∧
    (∀ x ∈ (delete_menu_item db sid item_id).2.order_items,
      x.menu_item_id ≠ some item_id) := by
  cases hfind : db.menu_items.find? (fun m => m.id == item_id) with
  | none =>
    exact absurd (List.find?_eq_none.1 hfind mi hmi) (by simp [hmid])
  | some mi' =>
    have hres : delete_menu_item db sid item_id =
        (Response.redirect "/restaurant/menu",
         { db with
            menu_items := erase_first (fun m => m.id == item_id) db.menu_items,
            order_items := db.order_items.map (fun x =>
              if x.menu_item_id == some item_id then { x with menu_item_id := none }
              else x) }) := by
      unfold delete_menu_item
      rw [hcu]
      simp [hr, hfind]
    rw [hres]
    refine ⟨rfl, erase_first_no_id item_id db.menu_items hnd ⟨mi, hmi, hmid⟩,
      List.length_map _ _, ?_, ?_⟩
    · have himg : (fun x : OrderItem =>
          if x.menu_item_id == some item_id then { x with menu_item_id := none }
          else x) oi = ⟨oi.id, oi.order_id, none, oi.quantity⟩ := by
        simp [hoid]
      exact himg ▸ List.mem_map_of_mem _ hoi
    · intro x hx
      obtain ⟨y, hy, hxy⟩ := List.mem_map.1 hx
      by_cases hymid : (y.menu_item_id == some item_id) = true
      · rw [if_pos hymid] at hxy
        rw [← hxy]
        simp
      · rw [if_neg (by simpa using hymid)] at hxy
        rw [← hxy]
        simpa using hymid

/-- Claim C8 witness: the amended theorem applied to the store in which the
seeded customer has ordered item 1 and the restaurant deletes item 1: the
referencing OrderItem row survives with its foreign key nullified. -/
theorem delete_menu_item_nullifies_witness :
    (⟨1, 1, none, 2⟩ : OrderItem) ∈
      (delete_menu_item
        (place_order init_state (some 2) [("quantity_1", "2")]
          "2025-01-01 12:00:00").2 (some 1) 1).2.order_items :=
  (delete_menu_item_nullifies_references
    (place_order init_state (some 2) [("quantity_1", "2")]
      "2025-01-01 12:00:00").2 (some 1) 1
    ⟨1, "restaurant", "restaurant", true⟩
    ⟨1, "漢堡", 80, some "牛肉漢堡", none⟩
    ⟨1, 1, some 1, 2⟩
    rfl rfl (by decide) rfl (by decide) (by decide) rfl).2.2.2.1

/-- Claim C9: a reachable state exists — the seeded customer places an
order for item 1 and the restaurant then deletes item 1 — in which the
authenticated customer owns an Order with an OrderItem whose referenced
MenuItem has been deleted (the delete nullified the row's `menu_item_id`),
and the order-history operation does not render: the MenuItem lookup
returns no row, the unguarded attribute dereference raises, and the
request fails with an unhandled fault leaving the store unchanged. -/
theorem order_history_faults_after_menu_delete :
    Reachable c9_db ∧
    get_current_user c9_db (some 2) = some ⟨2, "customer", "customer", false⟩ ∧
    (∃ o ∈ c9_db.orders, o.user_id = some 2) ∧
    (∃ it ∈ c9_db.order_items, it.menu_item_id = none ∧
      c9_db.menu_items.find? (fun m => some m.id == it.menu_item_id) = none) ∧
    customer_orders c9_db (some 2) = (OrdersView.fault, c9_db) := by
  refine ⟨?_, rfl, by decide, by decide, rfl⟩
  exact Relation.ReflTransGen.tail
    (Relation.ReflTransGen.tail Relation.ReflTransGen.refl
      (Step.ofPlaceOrder init_state (some 2) [("quantity_1", "2")]
        "2025-01-01 12:00:00"))
    (Step.ofDeleteMenuItem _ (some 1) 1)

theorem users_get_menu_settings (db : DB) :
    (get_menu_settings db).2.users = db.users := by
  unfold get_menu_settings
  split <;> rfl

theorem users_restaurant_dashboard (db : DB) (sid : Option Nat) :
    (restaurant_dashboard db sid).2.users = db.users := by
  unfold restaurant_dashboard
  split
  · rfl
  · split <;> rfl

theorem users_restaurant_users (db : DB) (sid : Option Nat) :
    (restaurant_users db sid).2.users = db.users := by
  unfold restaurant_users
  split
  · rfl
  · split <;> rfl

theorem users_restaurant_menu (db : DB) (sid : Option Nat) :
    (restaurant_menu db sid).2.users = db.users := by
  unfold restaurant_menu
  split
  · rfl
  · split
    · rfl
    · exact users_get_menu_settings db

theorem users_add_menu_item (db : DB) (sid : Option Nat) (n : String) (p : ℚ)
    (d : String) (img : Option String) (ts : String) :
    (add_menu_item db sid n p d img ts).2.users = db.users := by
  unfold add_menu_item
  split
  · rfl
  · split <;> rfl

theorem users_update_menu_item (db : DB) (sid : Option Nat) (iid : Nat)
    (n : String) (p : ℚ) (d : String) :
    (update_menu_item db sid iid n p d).2.users = db.users := by
  unfold update_menu_item
  split
  · rfl
  · split
    · rfl
    · split <;> rfl

theorem users_upload_menu_item_image (db : DB) (sid : Option Nat) (iid : Nat)
    (fn ts : String) :
    (upload_menu_item_image db sid iid fn ts).2.users = db.users := by
  unfold upload_menu_item_image
  split
  · rfl
  · split
    · rfl
    · split
      · rfl
      · split <;> rfl

theorem users_upload_full_menu_image (db : DB) (sid : Option Nat)
    (fn ts : String) :
    (upload_full_menu_image db sid fn ts).2.users = db.users := by
  unfold upload_full_menu_image
  split
  · rfl
  · split
    · rfl
    · split
      · exact users_get_menu_settings db
      · exact users_get_menu_settings db

theorem users_delete_menu_item (db : DB) (sid : Option Nat) (iid : Nat) :
    (delete_menu_item db sid iid).2.users = db.users := by
  unfold delete_menu_item
  split
  · rfl
  · split
    · rfl
    · split <;> rfl

theorem users_customer_menu (db : DB) (sid : Option Nat) :
    (customer_menu db sid).2.users = db.users := by
  unfold customer_menu
  split
  · rfl
  · exact users_get_menu_settings db

theorem users_place_order (db : DB) (sid : Option Nat)
    (form : List (String × String)) (now : String) :
    (place_order db sid form now).2.users = db.users := by
  unfold place_order
  split
  · rfl
  · split
    · rfl
    · split <;> rfl

theorem users_customer_orders (db : DB) (sid : Option Nat) :
    (customer_orders db sid).2.users = db.users := by
  unfold customer_orders
  split
  · rfl
  · split <;> rfl

theorem usernames_insert_user (db : DB) (un pw : String) (r : Bool)
    (u : User) (db' : DB) (h : insert_user db un pw r = some (u, db'))
    (hud : UsernamesDistinct db) : UsernamesDistinct db' := by
  unfold insert_user at h
  by_cases hany : db.users.any (fun x => x.username == un) = true
  · rw [if_pos hany] at h
    exact absurd h (by simp)
  · rw [if_neg hany] at h
    obtain ⟨-, hdb⟩ := Prod.mk.injEq .. ▸ Option.some.injEq .. ▸ h
    subst hdb
    unfold UsernamesDistinct at hud ⊢
    simp only [List.map_append, List.map_cons, List.map_nil]
    rw [List.nodup_append]
    refine ⟨hud, List.nodup_singleton _, ?_⟩
    intro s hs
    simp only [List.mem_singleton]
    obtain ⟨x, hx, hxs⟩ := List.mem_map.1 hs
    have := List.any_eq_false.1 (Bool.not_eq_true _ ▸ hany) x hx
    intro heq
    exact this (by simp [hxs, heq])

theorem usernames_login (db : DB) (un pw : String) (st : Option String)
    (hud : UsernamesDistinct db) : UsernamesDistinct (login db un pw st).2 := by
  unfold login
  cases hfind : db.users.find? (fun u => u.username == un) with
  | none =>
    simp only []
    by_cases hst : st = some "true"
    · subst hst
      simp only [beq_self_eq_true, Bool.not_true, Bool.not_false, if_true]
      cases hins : insert_user db un pw false with
      | none => exact hud
      | some udb =>
        obtain ⟨u', db'⟩ := udb
        exact usernames_insert_user db un pw false u' db' hins hud
    · have hbeq : (st == some "true") = false := by
        simp [hst]
      simp only [hbeq, Bool.not_false, Bool.not_true, if_false]
      exact hud
  | some u =>
    simp only []
    by_cases hpw : (u.password == pw) = true
    · simp only [hpw, if_true]
      exact hud
    · simp only [hpw, if_false]
      exact hud

theorem usernames_add_user (db : DB) (sid : Option Nat) (un pw isr : String)
    (hud : UsernamesDistinct db) : UsernamesDistinct (add_user db sid un pw isr).2 := by
  unfold add_user
  cases hcu : get_current_user db sid with
  | none => exact hud
  | some u =>
    simp only []
    by_cases hres : (!u.is_restaurant) = true
    · simp only [hres, if_true]
      exact hud
    · simp only [hres, if_false]
      cases hins : insert_user db un pw (isr.toLower == "true") with
      | none => exact hud
      | some udb =>
        obtain ⟨u', db'⟩ := udb
        exact usernames_insert_user db un pw (isr.toLower == "true") u' db' hins hud

theorem usernames_map_update_first (p : User → Bool) (f : User → User)
    (hf : ∀ u, (f u).username = u.username) :
    ∀ l : List User,
    (update_first p f l).map (fun u => u.username) = l.map (fun u => u.username) := by
  intro l
  induction l with
  | nil => rfl
  | cons x xs ih =>
    simp only [update_first]
    by_cases hx : p x
    · simp [hx, hf]
    · simp [hx, ih]

theorem usernames_update_user (db : DB) (sid : Option Nat) (uid : Nat)
    (pw cpw : String) (hud : UsernamesDistinct db) :
    UsernamesDistinct (update_user db sid uid pw cpw).2 := by
  unfold update_user
  cases hcu : get_current_user db sid with
  | none => exact hud
  | some u =>
    simp only []
    by_cases hres : (!u.is_restaurant) = true
    · simp only [hres, if_true]
      exact hud
    · simp only [hres, if_false]
      by_cases hne : (pw != cpw) = true
      · simp only [hne, if_true]
        exact hud
      · simp only [hne, if_false]
        cases hfind : db.users.find? (fun x => x.id == uid) with
        | none => exact hud
        | some t =>
          have h2 : (List.map (fun u => u.username)
              (update_first (fun x => x.id == uid)
                (fun x => { x with password := pw }) db.users)).Nodup := by
            rw [usernames_map_update_first (fun x => x.id == uid)
              (fun x => { x with password := pw }) (fun x => rfl) db.users]
            exact hud
          exact h2

theorem usernames_delete_user (db : DB) (sid : Option Nat) (uid : Nat)
    (hud : UsernamesDistinct db) :
    UsernamesDistinct (delete_user db sid uid).2 := by
  unfold delete_user
  cases hcu : get_current_user db sid with
  | none => exact hud
  | some u =>
    simp only []
    by_cases hres : (!u.is_restaurant) = true
    · simp only [hres, if_true]
      exact hud
    · simp only [hres, if_false]
      cases hfind : db.users.find? (fun x => x.id == uid) with
      | none => exact hud
      | some t =>
        exact List.Nodup.sublist
          ((erase_first_sublist (fun x => x.id == uid) db.users).map _) hud

theorem step_preserves_usernames_distinct {a b : DB} (h : Step a b)
    (hud : UsernamesDistinct a) : UsernamesDistinct b := by
  cases h with
  | ofLogin un pw st => exact usernames_login a un pw st hud
  | ofLogout => exact hud
  | ofDashboard sid =>
    unfold UsernamesDistinct
    rw [users_restaurant_dashboard]
    exact hud
  | ofUsersPage sid =>
    unfold UsernamesDistinct
    rw [users_restaurant_users]
    exact hud
  | ofAddUser sid un pw isr => exact usernames_add_user a sid un pw isr hud
  | ofUpdateUser sid uid pw cpw => exact usernames_update_user a sid uid pw cpw hud
  | ofDeleteUser sid uid => exact usernames_delete_user a sid uid hud
  | ofMenuPage sid =>
    unfold UsernamesDistinct
    rw [users_restaurant_menu]
    exact hud
  | ofAddMenuItem sid n p d img ts =>
    unfold UsernamesDistinct
    rw [users_add_menu_item]
    exact hud
  | ofUpdateMenuItem sid iid n p d =>
    unfold UsernamesDistinct
    rw [users_update_menu_item]
    exact hud
  | ofUploadItemImage sid iid fn ts =>
    unfold UsernamesDistinct
    rw [users_upload_menu_item_image]
    exact hud
  | ofUploadFullMenu sid fn ts =>
    unfold UsernamesDistinct
    rw [users_upload_full_menu_image]
    exact hud
  | ofDeleteMenuItem sid iid =>
    unfold UsernamesDistinct
    rw [users_delete_menu_item]
    exact hud
  | ofCustomerMenu sid =>
    unfold UsernamesDistinct
    rw [users_customer_menu]
    exact hud
  | ofPlaceOrder sid form now =>
    unfold UsernamesDistinct
    rw [users_place_order]
    exact hud
  | ofCustomerOrders sid =>
    unfold UsernamesDistinct
    rw [users_customer_orders]
    exact hud

/-- Claim C10: in every reachable state all User rows have pairwise
distinct usernames; and adding a username that already exists through the
admin add-user operation surfaces as an unhandled storage-uniqueness fault
that leaves the user table (and the whole store) unchanged, rather than as
a handled error or a second row. -/
theorem reachable_usernames_distinct :
    ∀ db, Reachable db →
    UsernamesDistinct db ∧
    (∀ sid cu username password isr,
      get_current_user db sid = some cu → cu.is_restaurant = true →
      (∃ u ∈ db.users, u.username = username) →
      add_user db sid username password isr = (Response.fault, db)) := by
  intro db hreach
  constructor
  · unfold Reachable at hreach
    induction hreach with
    | refl =>
      show (init_state.users.map (fun u => u.username)).Nodup
      decide
    | tail _ hstep ih => exact step_preserves_usernames_distinct hstep ih
  · intro sid cu un pw isr hcu hr hex
    have hany : db.users.any (fun u => u.username == un) = true := by
      obtain ⟨u, hu, he⟩ := hex
      exact List.any_eq_true.2 ⟨u, hu, by simp [he]⟩
    unfold add_user
    rw [hcu]
    simp [hr, insert_user, hany]

/-- Claim C10 witness: the invariant extracted at the initial state via
the reflexive reachability step. -/
theorem reachable_usernames_distinct_witness : UsernamesDistinct init_state :=
  (reachable_usernames_distinct init_state Relation.ReflTransGen.refl).1
